import Mathlib

/-!
Verification development for the tugboat-mcp server.

This file gives a shallow embedding, in Lean, of the parts of the
TypeScript source that the verified properties talk about:

- the client-side search filter and fallback aggregation of the
  searchPreviews tool (src/tools/index.ts, registerSearchTools);
- the error mapping of TugboatApiClient.handleApiError
  (src/utils/api-client.ts);
- the AuthManager state machine: authenticate, refreshToken,
  isAuthorized (src/utils/auth.ts), including the single-flight
  token-refresh behaviour under the JavaScript run-to-completion
  execution model;
- the HTTP-transport authentication middleware
  (src/middleware/auth.ts: createAuthMiddleware, getActionFromMethod);
- the tool handlers createPreview, updatePreview, updateProject,
  updateRepository, deleteProject, deleteRepository
  (src/tools/index.ts) and createPreview, getPreviewLogs
  (src/tools/previews.ts).

Conventions of the embedding:

- A tool result is modelled as the list of the texts of its content
  blocks (every block produced by these handlers has type "text", so
  the constant type tag is dropped).
- JavaScript values that may be undefined are modelled as Option.
  JavaScript truthiness tests on strings treat both undefined and the
  empty string as falsy; the helpers jsTruthy and jsOrElse reproduce
  that.
- An awaited API call that may reject is modelled as an
  (Except String) value passed to the handler: Except.error m stands
  for a thrown error whose .message is m, Except.ok v for a resolved
  value v.  Handlers additionally return the list of mutating upstream
  calls they issued, so that "the request was never sent" is a
  statement about the embedding.
- String.toLowerCase / toUpperCase are modelled on the ASCII range
  (lowerString / upperString); all strings appearing in the verified
  properties are ASCII.
-/

namespace Tugboat

/-- Substring test: does the second list occur as a prefix of the first. -/
def startsWithList : List Char → List Char → Bool
  | _, [] => true
  | [], _ :: _ => false
  | a :: as, b :: bs => a == b && startsWithList as bs

/-- Substring test: does the second list occur contiguously inside the first.
Models the JavaScript String.prototype.includes. -/
def containsList : List Char → List Char → Bool
  | [], q => q.isEmpty
  | a :: t, q => startsWithList (a :: t) q || containsList t q

/-- Model of the JavaScript s.includes(q) substring test. -/
def jsIncludes (s q : String) : Bool :=
  containsList s.toList q.toList

/-- ASCII lower-casing of one character, as toLowerCase acts on ASCII input. -/
def lowerChar (c : Char) : Char :=
  if 'A' ≤ c ∧ c ≤ 'Z' then Char.ofNat (c.toNat + 32) else c

/-- ASCII upper-casing of one character, as toUpperCase acts on ASCII input. -/
def upperChar (c : Char) : Char :=
  if 'a' ≤ c ∧ c ≤ 'z' then Char.ofNat (c.toNat - 32) else c

/-- Model of the JavaScript s.toLowerCase() for ASCII strings. -/
def lowerString (s : String) : String := String.mk (s.toList.map lowerChar)

/-- Model of the JavaScript s.toUpperCase() for ASCII strings. -/
def upperString (s : String) : String := String.mk (s.toList.map upperChar)

/-- Truthiness of a possibly-undefined JavaScript string: undefined and
the empty string are falsy. -/
def jsTruthy : Option String → Bool
  | none => false
  | some s => !s.isEmpty

/-- Model of the JavaScript expression (x || d) for a possibly-undefined
string x: the default d is used when x is undefined or empty. -/
def jsOrElse (x : Option String) (d : String) : String :=
  match x with
  | none => d
  | some s => if s.isEmpty then d else s

/-- Rendering of a possibly-undefined string inside a template literal:
undefined renders as the text "undefined". -/
def jsShow : Option String → String
  | none => "undefined"
  | some s => s

/-- Result of a tool handler: the texts of its content blocks (all blocks
produced by the embedded handlers carry the constant type tag "text"). -/
structure ToolResult where
  content : List String
deriving DecidableEq, Repr

/-- A mutating upstream HTTP call issued by a handler: its method, its
endpoint, and the keys of the JSON body it carried. -/
structure IssuedCall where
  method : String
  endpoint : String
  bodyKeys : List String
deriving DecidableEq, Repr

/-- Model of the JavaScript expression (error.message || an unknown-error
default) used by the catch blocks of src/tools/index.ts. -/
def errOrUnknown (m : String) : String :=
  if m.isEmpty then "Unknown error" else m

/-! ## The searchPreviews tool (src/tools/index.ts, registerSearchTools)

A preview is modelled by the five fields the searchPreviews handler
reads: name, id, ref, url and state, each possibly undefined.  The
created timestamp, which the handler only renders through the
locale-dependent toLocaleString, is outside the model; the rendering
below is the handler text without the Created line. -/

structure Preview where
  name : Option String
  id : Option String
  ref : Option String
  url : Option String
  state : Option String
deriving DecidableEq, Repr

/-- One field test of the search filter: the JavaScript conjunct
(field && field.toLowerCase().includes(queryLower)). -/
def fieldMatches (f : Option String) (queryLower : String) : Bool :=
  match f with
  | none => false
  | some s => !s.isEmpty && jsIncludes (lowerString s) queryLower

/-- The client-side filter predicate of the searchPreviews handler
(identical in the direct path and the fallback path).  The state guard is
the JavaScript test (state && preview.state !== state && !(state === 'all')),
and the field match is the four-way OR over name, id, ref and url. -/
def previewMatches (query : String) (state : Option String) (p : Preview) : Bool :=
  if (match state with
      | none => false
      | some st => !st.isEmpty && p.state != some st && !(st == "all")) then
    false
  else
    let queryLower := lowerString query
    fieldMatches p.name queryLower ||
    fieldMatches p.id queryLower ||
    fieldMatches p.ref queryLower ||
    fieldMatches p.url queryLower

/-- Outcome of one awaited GET that is expected to return an array:
either the request rejected with an error message, or it resolved to a
non-array value, or it resolved to an array. -/
inductive ListResp (α : Type) where
  | err (message : String)
  | nonArray
  | ok (items : List α)
deriving DecidableEq, Repr

/-- A project as read by the searchPreviews fallback path: only its id
field is consulted. -/
structure ProjectRef where
  id : Option String
deriving DecidableEq, Repr

/-- The upstream responses the searchPreviews handler can consume: the
direct previews listing, the projects listing, and the per-project
previews listing as a function of the project id. -/
structure SearchUpstream where
  direct : ListResp Preview
  projects : ListResp ProjectRef
  projectPreviews : String → ListResp Preview

/-- Rendering of one matched preview in the search output (without the
locale-dependent Created line, see Preview above). -/
def renderPreviewEntry (i : Nat) (p : Preview) : String :=
  let nm := jsOrElse p.name "Unnamed"
  let pid := jsShow p.id
  let st := jsOrElse p.state "Unknown"
  let pu := jsShow p.url
  s!"{i + 1}. {nm} (ID: {pid})\n" ++
  s!"   State: {st}\n" ++
  (if jsTruthy p.url then s!"   URL: {pu}\n" else "") ++
  "\n"

/-- Rendering of the search result text for a list of matched previews. -/
def renderSearchText (query : String) (matched : List Preview) : String :=
  s!"Found {matched.length} previews matching \"{query}\":\n\n" ++
  (if matched.length = 0 then "No matching previews found."
   else String.join (matched.enum.map (fun ip => renderPreviewEntry ip.1 ip.2)))

/-- The fallback aggregation of the searchPreviews handler: previews of
each listed project are fetched one by one; a project with a falsy id is
skipped, a per-project request error is caught and skipped, and a
non-array per-project response is skipped. -/
def aggregatePreviews (u : SearchUpstream) (ps : List ProjectRef) : List Preview :=
  ps.foldl (fun acc pr =>
    match pr.id with
    | none => acc
    | some pid =>
      if pid.isEmpty then acc
      else
        match u.projectPreviews pid with
        | .ok l => acc ++ l
        | _ => acc) []

/-- The searchPreviews handler.  The authorized argument is the value of
the awaited authManager.isAuthorized call; the upstream argument carries
the responses of the awaited API calls.  The direct path filters the
direct listing; a rejected or non-array direct response is caught by the
inner catch and triggers the fallback path over projects; a rejected
projects listing propagates to the outer catch, and a non-array projects
listing raises an error likewise caught by the outer catch. -/
def searchPreviewsRun (u : SearchUpstream) (authorized : Bool) (query : String)
    (state : Option String) : ToolResult :=
  if !authorized then
    { content := ["Error: You do not have permission to search previews"] }
  else
    match u.direct with
    | .ok l =>
      { content := [renderSearchText query (l.filter (previewMatches query state))] }
    | _ =>
      match u.projects with
      | .err m =>
        { content := [s!"Error searching previews: {errOrUnknown m}"] }
      | .nonArray =>
        { content := ["Error searching previews: Unexpected response format from projects API"] }
      | .ok ps =>
        let all := aggregatePreviews u ps
        { content := [renderSearchText query (all.filter (previewMatches query state))] }

/-! ## TugboatApiClient.handleApiError (src/utils/api-client.ts)

An axios rejection value, as far as handleApiError consults it: an
optional response (with its HTTP status and the optional message field of
its body), a flag telling whether a request object is present (the
request was sent but no response arrived), the error message, and the
optional url of the request config. -/

structure UpstreamError where
  response : Option (Nat × Option String)
  hasRequest : Bool
  message : String
  configUrl : Option String
deriving DecidableEq, Repr

/-- The message of the error thrown by handleApiError (the function
always throws; its result here is the thrown message). -/
def handleApiError (e : UpstreamError) : String :=
  match e.response with
  | some (statusCode, dataMessage) =>
    if statusCode = 401 then
      "Tugboat API Error: Authentication failed. Please check your API key."
    else if statusCode = 403 then
      "Tugboat API Error: Authorization failed. You do not have permission to perform this action."
    else if statusCode = 404 then
      let endpoint := jsOrElse e.configUrl "unknown endpoint"
      s!"Tugboat API Error: Resource not found at {endpoint}"
    else
      let msg := jsOrElse dataMessage "Unknown API error"
      s!"Tugboat API Error ({statusCode}): {msg}"
  | none =>
    if e.hasRequest then
      "Tugboat API Error: No response received from server"
    else
      s!"Tugboat API Error: {e.message}"

/-! ## AuthManager (src/utils/auth.ts)

The token record: its token string, and an optional expiry time. -/

structure AuthToken where
  token : String
  expires : Option Nat
deriving DecidableEq, Repr

/-- The token produced by one execution of AuthManager.refreshToken: the
static API key wrapped with no expiration. -/
def refreshTokenValue (apiKey : String) : AuthToken :=
  { token := apiKey, expires := none }

/-- Validity test of a cached token inside authenticate: the JavaScript
condition (!this.token.expires || this.token.expires > Date.now()). -/
def tokenValid (t : AuthToken) (now : Nat) : Bool :=
  match t.expires with
  | none => true
  | some e => decide (now < e)

/-- The mutable fields of an AuthManager relevant to authenticate: the
cached token, the in-flight refresh promise (identified by the index of
the refresh execution that created it), and the number of refresh
executions started so far. -/
structure AuthState where
  token : Option AuthToken
  tokenRefreshPromise : Option Nat
  refreshCount : Nat
deriving DecidableEq, Repr

/-- The state of a freshly constructed AuthManager. -/
def initialAuthState : AuthState :=
  { token := none, tokenRefreshPromise := none, refreshCount := 0 }

/-- What one call of authenticate resolves to, seen from its synchronous
prefix: either a cached token returned directly, or the in-flight refresh
promise it awaits (identified by its refresh index). -/
inductive AuthCallOutcome where
  | cached (t : AuthToken)
  | awaits (promiseId : Nat)
deriving DecidableEq, Repr

/-- The synchronous prefix of AuthManager.authenticate under the
JavaScript run-to-completion model.  Until its first await, one call runs
atomically: it returns a valid cached token if present; otherwise, if a
refresh promise is already stored, it returns that promise; otherwise it
executes refreshToken (whose body contains no await, so the promise is
created and stored synchronously) and awaits the new promise. -/
def authenticateStart (s : AuthState) (now : Nat) : AuthState × AuthCallOutcome :=
  match s.token with
  | some t =>
    if tokenValid t now then (s, .cached t)
    else
      match s.tokenRefreshPromise with
      | some p => (s, .awaits p)
      | none =>
        ({ s with tokenRefreshPromise := some s.refreshCount,
                  refreshCount := s.refreshCount + 1 }, .awaits s.refreshCount)
  | none =>
    match s.tokenRefreshPromise with
    | some p => (s, .awaits p)
    | none =>
      ({ s with tokenRefreshPromise := some s.refreshCount,
                refreshCount := s.refreshCount + 1 }, .awaits s.refreshCount)

/-- A burst of n authenticate calls whose synchronous prefixes all run
before the refresh promise resolves (the scenario of a burst of
concurrent callers): the calls start one after the other, each prefix
atomic. -/
def authenticateBurst (s : AuthState) (now : Nat) : Nat → AuthState × List AuthCallOutcome
  | 0 => (s, [])
  | n + 1 =>
    let (s1, r) := authenticateStart s now
    let (s2, rs) := authenticateBurst s1 now n
    (s2, r :: rs)

/-- The token a caller finally resolves to: a cached token directly, and
an awaited refresh promise resolves to the value produced by the refresh
execution, which is always the wrapped static API key. -/
def resolveOutcome (apiKey : String) : AuthCallOutcome → AuthToken
  | .cached t => t
  | .awaits _ => refreshTokenValue apiKey

/-- The sequential (single-caller, run-to-completion) semantics of
AuthManager.authenticate: return a valid cached token, or execute
refreshToken, cache its value, clear the in-flight guard, and return the
new token.  The refresh body cannot throw, so authenticate always
succeeds. -/
def authenticate (apiKey : String) (s : AuthState) (now : Nat) : AuthState × AuthToken :=
  match s.token with
  | some t =>
    if tokenValid t now then (s, t)
    else
      let t2 := refreshTokenValue apiKey
      ({ token := some t2, tokenRefreshPromise := none,
         refreshCount := s.refreshCount + 1 }, t2)
  | none =>
    let t2 := refreshTokenValue apiKey
    ({ token := some t2, tokenRefreshPromise := none,
       refreshCount := s.refreshCount + 1 }, t2)

/-- The read, write and delete actions of the authorization interface. -/
inductive AccessAction where
  | read
  | write
  | delete
deriving DecidableEq, Repr

/-- Rendering of an action inside a template literal. -/
def accessActionText : AccessAction → String
  | .read => "read"
  | .write => "write"
  | .delete => "delete"

/-- AuthManager.isAuthorized: await authenticate, then grant every
request regardless of the resource and action arguments. -/
def isAuthorized (apiKey : String) (s : AuthState) (now : Nat)
    (resource : String) (action : AccessAction) : AuthState × Bool :=
  let (s1, _) := authenticate apiKey s now
  (s1, true)

/-! ## Authentication middleware (src/middleware/auth.ts) -/

/-- The character class matched by a backslash-s in a JavaScript regular
expression (whitespace, including line terminators). -/
def jsWhitespace (c : Char) : Bool :=
  c == '\t' || c == '\n' || c == '\x0b' || c == '\x0c' || c == '\r' ||
  c == ' ' || c == '\u00a0' || c == '\u1680' ||
  ('\u2000' ≤ c && c ≤ '\u200a') ||
  c == '\u2028' || c == '\u2029' || c == '\u202f' || c == '\u205f' ||
  c == '\u3000' || c == '\ufeff'

/-- The characters the JavaScript dot does not match (line terminators). -/
def jsLineTerminator (c : Char) : Bool :=
  c == '\n' || c == '\r' || c == '\u2028' || c == '\u2029'

/-- The token extracted by matching an authorization header against the
case-insensitive anchored pattern of the middleware: the literal word
Bearer, then at least one whitespace character (greedy), then the
captured rest (one or more characters, none a line terminator, up to the
end).  A match splits the remainder after the six-letter word into a
non-empty whitespace run and a non-empty terminator-free capture, the
engine preferring the longest run.  When the remainder after the maximal
whitespace run is non-empty, that split is the only candidate: the
capture is the remainder, valid exactly when it is free of line
terminators (shrinking the run only prepends whitespace ahead of the
terminator, so backtracking recovers nothing).  When the remainder is
empty (the whole rest is whitespace), the greedy run backtracks one
character: a match exists exactly when the rest has at least two
whitespace characters and its last one is not a line terminator, and the
capture is that single last character. -/
def parseBearer (h : String) : Option String :=
  match h.toList with
  | c1 :: c2 :: c3 :: c4 :: c5 :: c6 :: rest =>
    if lowerChar c1 == 'b' && lowerChar c2 == 'e' && lowerChar c3 == 'a' &&
       lowerChar c4 == 'r' && lowerChar c5 == 'e' && lowerChar c6 == 'r' then
      let ws := rest.takeWhile jsWhitespace
      let tok := rest.dropWhile jsWhitespace
      if tok.isEmpty then
        match ws.getLast? with
        | some c =>
          if decide (2 ≤ ws.length) && !jsLineTerminator c then some (String.mk [c])
          else none
        | none => none
      else
        if ws.isEmpty || tok.any jsLineTerminator then none
        else some (String.mk tok)
    else none
  | _ => none

/-- An inbound HTTP request, as far as the middleware consults it: the
authorization header, the HTTP method, and the named resource route
parameter. -/
structure HttpRequest where
  authHeader : Option String
  method : String
  resourceParam : Option String
deriving DecidableEq, Repr

/-- What the middleware does with a request: reject it with a status and
an error/message body, or pass it to the next handler. -/
inductive MwOutcome where
  | reject (status : Nat) (error message : String)
  | next
deriving DecidableEq, Repr

/-- The action derived from the HTTP method by the middleware
(getActionFromMethod): the method is upper-cased, GET maps to read,
POST, PUT and PATCH map to write, DELETE maps to delete, and every other
method falls through to read. -/
def getActionFromMethod (method : String) : AccessAction :=
  let m := upperString method
  if m = "GET" then .read
  else if m = "POST" ∨ m = "PUT" ∨ m = "PATCH" then .write
  else if m = "DELETE" then .delete
  else .read

/-- The middleware produced by createAuthMiddleware, as a function of the
request, of the token the authentication manager resolves to, and of the
oracle giving the value of the awaited isAuthorized call.  A missing or
falsy authorization header rejects with 401, a header not matching the
bearer pattern rejects with 401, a bearer value different from the
manager token rejects with 401; with a truthy resource route parameter
the action is derived from the method and isAuthorized is consulted,
rejecting with 403 on denial; otherwise the request passes through.
In the embedding authenticate cannot throw, so the catch-all 500 branch
of the source is unreachable and has no counterpart. -/
def createAuthMiddleware (tokenValue : String)
    (isAuthOracle : String → AccessAction → Bool) (req : HttpRequest) : MwOutcome :=
  match req.authHeader with
  | none => .reject 401 "Authentication required" "No authorization header provided"
  | some h =>
    if h.isEmpty then
      .reject 401 "Authentication required" "No authorization header provided"
    else
      match parseBearer h with
      | none => .reject 401 "Authentication required" "Invalid authorization header format"
      | some tok =>
        if tok ≠ tokenValue then
          .reject 401 "Authentication failed" "Invalid authentication token"
        else
          match req.resourceParam with
          | none => .next
          | some r =>
            if r.isEmpty then .next
            else
              let action := getActionFromMethod req.method
              if isAuthOracle r action then .next
              else
                .reject 403 "Authorization failed"
                  s!"You do not have permission to {accessActionText action} this resource"

/-! ## The createPreview tool handlers

The handler of src/tools/index.ts (registerPreviewTools).  Its awaited
steps are passed in as values: authR is the result of the awaited
authManager.isAuthorized call (an error stands for a thrown pre-check),
postR the result of the awaited POST.  The handler also returns the
mutating upstream calls it issued. -/

structure CreatedPreview where
  id : Option String
  name : Option String
deriving DecidableEq, Repr

/-- The createPreview handler of src/tools/index.ts.  Order of steps as
in the source: authorization check, missing-parameter check, POST to the
repos previews endpoint; every thrown error is caught and rendered as a
single error text block. -/
def createPreviewRun (authR : Except String Bool) (postR : Except String CreatedPreview)
    (repo ref : String) (name : Option String) (cfg : Option Unit) :
    ToolResult × List IssuedCall :=
  match authR with
  | .error m =>
    let msg := errOrUnknown m
    ({ content := [s!"Error creating preview: {msg}"] }, [])
  | .ok false =>
    ({ content := [s!"Error: You do not have permission to create previews in repository {repo}"] }, [])
  | .ok true =>
    if repo.isEmpty || ref.isEmpty then
      let missing := (if repo.isEmpty then ["repo"] else []) ++
                     (if ref.isEmpty then ["ref"] else [])
      let joined := String.intercalate ", " missing
      ({ content := [s!"Error: Missing required parameters: {joined}"] }, [])
    else
      let keys := ["ref"] ++ (if jsTruthy name then ["name"] else []) ++
                  (if cfg.isSome then ["config"] else [])
      let call : IssuedCall := { method := "POST", endpoint := s!"/repos/{repo}/previews",
                                 bodyKeys := keys }
      match postR with
      | .error m =>
        let msg := errOrUnknown m
        ({ content := [s!"Error creating preview: {msg}"] }, [call])
      | .ok p =>
        let pid := jsShow p.id
        let nm := jsOrElse p.name "Unnamed"
        ({ content := [s!"Preview created successfully!\n\nID: {pid}\nName: {nm}\nRepository: {repo}\nReference: {ref}"] },
         [call])

/-- The preview record read back by the createPreview handler of
src/tools/previews.ts after its follow-up getPreview call. -/
structure PreviewLookup where
  id : Option String
  name : Option String
deriving DecidableEq, Repr

/-- The createPreview handler of src/tools/previews.ts.  createR is the
awaited apiClient.createPreview step, resolving to the id read from the
response (a missing field on the response makes that step throw, which
the error case also covers); getR the awaited follow-up getPreview.  The
inner catch around getPreview and the outer catch render the same error
text. -/
def createPreviewRunAlt (authR : Except String Bool) (createR : Except String String)
    (getR : Except String PreviewLookup) : ToolResult :=
  match authR with
  | .error m => { content := [s!"Error creating preview: {m}"] }
  | .ok false =>
    { content := ["You are not authorized to create previews. Please authenticate first."] }
  | .ok true =>
    match createR with
    | .error m => { content := [s!"Error creating preview: {m}"] }
    | .ok _ =>
      match getR with
      | .error m => { content := [s!"Error creating preview: {m}"] }
      | .ok pd =>
        let nm := jsShow pd.name
        let pid := jsShow pd.id
        { content := [s!"Successfully created preview {nm} ({pid})"] }

/-! ## The getPreviewLogs tool handler (src/tools/previews.ts) -/

/-- The getPreviewLogs handler of src/tools/previews.ts.  logsR is the
awaited apiClient.getPreviewLogs call, resolving to the logs array of the
response (a response without that array makes the handler throw at the
map call, which the error case also covers).  Each log line becomes one
text block; an empty array is replaced by the single no-logs block. -/
def getPreviewLogsRun (authR : Except String Bool)
    (logsR : Except String (List String)) : ToolResult :=
  match authR with
  | .error m => { content := [s!"Error retrieving preview logs: {m}"] }
  | .ok false =>
    { content := ["You are not authorized to view preview logs. Please authenticate first."] }
  | .ok true =>
    match logsR with
    | .error m => { content := [s!"Error retrieving preview logs: {m}"] }
    | .ok logs =>
      if logs.length > 0 then { content := logs }
      else { content := ["No logs available for this preview."] }

/-! ## The confirm-gated delete tool handlers (src/tools/index.ts) -/

/-- The deleteProject handler: authorization check, then the confirm
safety check, then the DELETE call. -/
def deleteProjectRun (authR : Except String Bool) (delR : Except String Unit)
    (id : String) (confirm : Bool) : ToolResult × List IssuedCall :=
  match authR with
  | .error m =>
    let msg := errOrUnknown m
    ({ content := [s!"Error deleting project: {msg}"] }, [])
  | .ok false =>
    ({ content := ["Error: You do not have permission to delete projects"] }, [])
  | .ok true =>
    if !confirm then
      ({ content := ["Operation cancelled. Set confirm=true to confirm deletion."] }, [])
    else
      let call : IssuedCall := { method := "DELETE", endpoint := s!"/projects/{id}",
                                 bodyKeys := [] }
      match delR with
      | .error m =>
        let msg := errOrUnknown m
        ({ content := [s!"Error deleting project: {msg}"] }, [call])
      | .ok _ =>
        ({ content := [s!"Project with ID {id} has been deleted successfully."] }, [call])

/-- The deleteRepository handler: authorization check, then the confirm
safety check, then the DELETE call. -/
def deleteRepositoryRun (authR : Except String Bool) (delR : Except String Unit)
    (id : String) (confirm : Bool) : ToolResult × List IssuedCall :=
  match authR with
  | .error m =>
    let msg := errOrUnknown m
    ({ content := [s!"Error deleting repository: {msg}"] }, [])
  | .ok false =>
    ({ content := ["Error: You do not have permission to delete repositories"] }, [])
  | .ok true =>
    if !confirm then
      ({ content := ["Operation cancelled. Set confirm=true to confirm deletion."] }, [])
    else
      let call : IssuedCall := { method := "DELETE", endpoint := s!"/repos/{id}",
                                 bodyKeys := [] }
      match delR with
      | .error m =>
        let msg := errOrUnknown m
        ({ content := [s!"Error deleting repository: {msg}"] }, [call])
      | .ok _ =>
        ({ content := [s!"Repository with ID {id} has been deleted successfully."] }, [call])

/-! ## The update tool handlers (src/tools/index.ts) -/

/-- Helper: the string Yes or No for a boolean rendered by the update
handlers. -/
def yesNo (b : Bool) : String := if b then "Yes" else "No"

/-- The optional inputs of the updatePreview tool.  The config record is
relayed opaquely, so only its presence is modelled. -/
structure UpdatePreviewArgs where
  previewId : String
  name : Option String
  locked : Option Bool
  anchor : Option Bool
  anchorType : Option String
  config : Option Unit
deriving DecidableEq, Repr

/-- The keys of the partial-update body built by the updatePreview
handler: each optional input that is defined contributes its key, in the
insertion order of the source. -/
def updatePreviewKeys (a : UpdatePreviewArgs) : List String :=
  (if a.name.isSome then ["name"] else []) ++
  (if a.locked.isSome then ["locked"] else []) ++
  (if a.anchor.isSome then ["anchor"] else []) ++
  (if a.anchorType.isSome then ["anchor_type"] else []) ++
  (if a.config.isSome then ["config"] else [])

/-- The preview returned by the PATCH, as far as the updatePreview
handler renders it. -/
structure PatchedPreview where
  name : Option String
  locked : Option Bool
  anchor : Option Bool
  anchorType : Option String
deriving DecidableEq, Repr

/-- The success text of the updatePreview handler. -/
def renderPatchedPreview (previewId : String) (keys : List String)
    (up : PatchedPreview) : String :=
  let joined := String.intercalate ", " keys
  let nm := jsOrElse up.name "Unnamed"
  let at2 := jsShow up.anchorType
  s!"Preview {previewId} updated successfully\n\n" ++
  s!"Updated properties: {joined}\n\n" ++
  "Current preview details:\n" ++
  s!"Name: {nm}\n" ++
  (match up.locked with
   | some b => let yn := yesNo b; s!"Locked: {yn}\n"
   | none => "") ++
  (match up.anchor with
   | some b => let yn := yesNo b; s!"Anchor: {yn}\n"
   | none => "") ++
  (if jsTruthy up.anchorType then s!"Anchor Type: {at2}\n" else "")

/-- The updatePreview handler: authorization check, zero-field guard,
then the PATCH call. -/
def updatePreviewRun (authR : Except String Bool)
    (patchR : Except String PatchedPreview) (a : UpdatePreviewArgs) :
    ToolResult × List IssuedCall :=
  match authR with
  | .error m =>
    let msg := errOrUnknown m
    ({ content := [s!"Error updating preview: {msg}"] }, [])
  | .ok false =>
    ({ content := [s!"Error: You do not have permission to update preview {a.previewId}"] }, [])
  | .ok true =>
    let keys := updatePreviewKeys a
    if keys.isEmpty then
      ({ content := ["Error: No update parameters specified"] }, [])
    else
      let call : IssuedCall := { method := "PATCH", endpoint := s!"/previews/{a.previewId}",
                                 bodyKeys := keys }
      match patchR with
      | .error m =>
        let msg := errOrUnknown m
        ({ content := [s!"Error updating preview: {msg}"] }, [call])
      | .ok up =>
        ({ content := [renderPatchedPreview a.previewId keys up] }, [call])

/-- The inputs of the updateProject tool. -/
structure UpdateProjectArgs where
  id : String
  name : Option String
  domain : Option String
deriving DecidableEq, Repr

/-- The keys of the partial-update body built by the updateProject
handler. -/
def updateProjectKeys (a : UpdateProjectArgs) : List String :=
  (if a.name.isSome then ["name"] else []) ++
  (if a.domain.isSome then ["domain"] else [])

/-- The project returned by the PATCH, as far as the updateProject
handler renders it. -/
structure PatchedProject where
  id : Option String
  name : Option String
  domain : Option String
  updatedAt : Option String
deriving DecidableEq, Repr

/-- The success text of the updateProject handler. -/
def renderPatchedProject (p : PatchedProject) : String :=
  let pid := jsShow p.id
  let nm := jsOrElse p.name "Unnamed"
  let dm := jsOrElse p.domain "Default"
  let ua := jsShow p.updatedAt
  "Project updated successfully:\n\n" ++
  s!"ID: {pid}\n" ++
  s!"Name: {nm}\n" ++
  s!"Domain: {dm}\n" ++
  s!"Updated: {ua}\n"

/-- The updateProject handler: authorization check, then the PATCH call.
Unlike updatePreview and updateRepository, the source has no zero-field
guard, so the PATCH is issued even when the update body is empty. -/
def updateProjectRun (authR : Except String Bool)
    (patchR : Except String PatchedProject) (a : UpdateProjectArgs) :
    ToolResult × List IssuedCall :=
  match authR with
  | .error m =>
    let msg := errOrUnknown m
    ({ content := [s!"Error updating project: {msg}"] }, [])
  | .ok false =>
    ({ content := ["Error: You do not have permission to update projects"] }, [])
  | .ok true =>
    let call : IssuedCall := { method := "PATCH", endpoint := s!"/projects/{a.id}",
                               bodyKeys := updateProjectKeys a }
    match patchR with
    | .error m =>
      let msg := errOrUnknown m
      ({ content := [s!"Error updating project: {msg}"] }, [call])
    | .ok p =>
      ({ content := [renderPatchedProject p] }, [call])

/-- The optional inputs of the updateRepository tool. -/
structure UpdateRepositoryArgs where
  id : String
  name : Option String
  domain : Option String
  autobuild : Option Bool
  autobuildDrafts : Option Bool
  autodelete : Option Bool
  autorebuild : Option Bool
  autoredeploy : Option Bool
  providerComment : Option Bool
  providerDeployment : Option Bool
  providerForks : Option Bool
  providerStatus : Option Bool
  buildTimeout : Option Nat
deriving DecidableEq, Repr

/-- The keys of the defined optional fields of the updateRepository
inputs, in the declaration order of the schema. -/
def updateRepositoryKeys (a : UpdateRepositoryArgs) : List String :=
  (if a.name.isSome then ["name"] else []) ++
  (if a.domain.isSome then ["domain"] else []) ++
  (if a.autobuild.isSome then ["autobuild"] else []) ++
  (if a.autobuildDrafts.isSome then ["autobuild_drafts"] else []) ++
  (if a.autodelete.isSome then ["autodelete"] else []) ++
  (if a.autorebuild.isSome then ["autorebuild"] else []) ++
  (if a.autoredeploy.isSome then ["autoredeploy"] else []) ++
  (if a.providerComment.isSome then ["provider_comment"] else []) ++
  (if a.providerDeployment.isSome then ["provider_deployment"] else []) ++
  (if a.providerForks.isSome then ["provider_forks"] else []) ++
  (if a.providerStatus.isSome then ["provider_status"] else []) ++
  (if a.buildTimeout.isSome then ["build_timeout"] else [])

/-- The repository returned by the PATCH, as far as the updateRepository
handler renders it. -/
structure PatchedRepository where
  id : Option String
  name : Option String
  updatedAt : Option String
deriving DecidableEq, Repr

/-- The success text of the updateRepository handler. -/
def renderPatchedRepository (keys : List String) (p : PatchedRepository) : String :=
  let pid := jsShow p.id
  let nm := jsShow p.name
  let joined := String.intercalate ", " keys
  let ua := jsShow p.updatedAt
  "Repository updated successfully:\n\n" ++
  s!"ID: {pid}\n" ++
  s!"Name: {nm}\n" ++
  s!"Updated fields: {joined}\n" ++
  s!"Last updated: {ua}\n"

/-- The updateRepository handler: authorization check, zero-field guard,
then the PATCH call. -/
def updateRepositoryRun (authR : Except String Bool)
    (patchR : Except String PatchedRepository) (a : UpdateRepositoryArgs) :
    ToolResult × List IssuedCall :=
  match authR with
  | .error m =>
    let msg := errOrUnknown m
    ({ content := [s!"Error updating repository: {msg}"] }, [])
  | .ok false =>
    ({ content := ["Error: You do not have permission to update repositories"] }, [])
  | .ok true =>
    let keys := updateRepositoryKeys a
    if keys.isEmpty then
      ({ content := ["Error: No fields to update were provided"] }, [])
    else
      let call : IssuedCall := { method := "PATCH", endpoint := s!"/repos/{a.id}",
                                 bodyKeys := keys }
      match patchR with
      | .error m =>
        let msg := errOrUnknown m
        ({ content := [s!"Error updating repository: {msg}"] }, [call])
      | .ok p =>
        ({ content := [renderPatchedRepository keys p] }, [call])

/-! ## Example values used by concrete instances in the theorems -/

/-- Helper: a string known to differ from the empty string has a false
isEmpty flag. -/
theorem isEmpty_false_of_ne {s : String} (h : s ≠ "") : s.isEmpty = false := by
  rcases hb : s.isEmpty
  · rfl
  · exact absurd ((String.isEmpty_iff s).mp hb) h

/-- The first preview of the worked search example. -/
def featurePreview : Preview :=
  { name := some "Feature Preview", id := none, ref := none, url := none, state := none }

/-- The second preview of the worked search example. -/
def mainPreview : Preview :=
  { name := some "Main Branch", id := none, ref := none, url := none, state := none }

/-! ## Theorems -/

/-- C10: the searchPreviews client-side filter with the state filter set
to all returns exactly the same matching set as the filter with no state
filter supplied; the state guard never excludes a preview for those two
arguments. -/
theorem claim_C10_state_all_identity (q : String) (p : Preview) (l : List Preview) :
    previewMatches q (some "all") p = previewMatches q none p ∧
    l.filter (previewMatches q (some "all")) = l.filter (previewMatches q none) := by
  constructor
  · simp [previewMatches]
  · apply List.filter_congr
    intro x _
    simp [previewMatches]

/-- C4: AuthManager.isAuthorized first calls authenticate, threading its
state, and then returns true for every resource and every action; under
the embedding authenticate always succeeds (its refresh step cannot
throw), so the authorization check grants every request. -/
theorem claim_C4_isAuthorized_grants (apiKey : String) (s : AuthState) (now : Nat)
    (resource : String) (action : AccessAction) :
    isAuthorized apiKey s now resource action = ((authenticate apiKey s now).1, true) := by
  rfl

/-- C6: for both confirm-gated delete tools, an invocation with confirm
set to false never issues the upstream DELETE call, and (with the
authorization result the real always-granting AuthManager produces)
returns the cancellation message. -/
theorem claim_C6_confirm_gate (authR : Except String Bool) (delR : Except String Unit)
    (id : String) :
    (deleteProjectRun authR delR id false).2 = [] ∧
    (deleteRepositoryRun authR delR id false).2 = [] ∧
    deleteProjectRun (Except.ok true) delR id false =
      ({ content := ["Operation cancelled. Set confirm=true to confirm deletion."] }, []) ∧
    deleteRepositoryRun (Except.ok true) delR id false =
      ({ content := ["Operation cancelled. Set confirm=true to confirm deletion."] }, []) := by
  refine ⟨?_, ?_, rfl, rfl⟩
  · rcases authR with m | b
    · rfl
    · cases b <;> rfl
  · rcases authR with m | b
    · rfl
    · cases b <;> rfl

/-- C9: the getPreviewLogs tool of src/tools/previews.ts, on an upstream
response whose logs array is empty and with an authorized caller, returns
exactly one text block reading that no logs are available, and its result
never has an empty content list for any authorization result and any
upstream response. -/
theorem claim_C9_empty_logs_message (authR : Except String Bool)
    (logsR : Except String (List String)) :
    getPreviewLogsRun (Except.ok true) (Except.ok []) =
      { content := ["No logs available for this preview."] } ∧
    (getPreviewLogsRun authR logsR).content ≠ [] := by
  refine ⟨rfl, ?_⟩
  rcases authR with m | b
  · simp [getPreviewLogsRun]
  · cases b
    · simp [getPreviewLogsRun]
    · rcases logsR with m | logs
      · simp [getPreviewLogsRun]
      · cases logs <;> simp [getPreviewLogsRun]

/-- C2: TugboatApiClient.handleApiError maps a 401 response to the fixed
authentication-failed message, a 403 response to the fixed
authorization-failed message, a 404 response to the resource-not-found
message carrying the request url verbatim (with the quoted example), any
other non-2xx status with a non-empty body message to the generic
status-and-message form, and a request that received no response to the
fixed no-response message. -/
theorem claim_C2_handleApiError_mapping :
    (∀ (e : UpstreamError) (dm : Option String), e.response = some (401, dm) →
      handleApiError e = "Tugboat API Error: Authentication failed. Please check your API key.") ∧
    (∀ (e : UpstreamError) (dm : Option String), e.response = some (403, dm) →
      handleApiError e =
        "Tugboat API Error: Authorization failed. You do not have permission to perform this action.") ∧
    (∀ (e : UpstreamError) (dm : Option String) (url : String),
      e.response = some (404, dm) → e.configUrl = some url → url ≠ "" →
      handleApiError e = s!"Tugboat API Error: Resource not found at {url}") ∧
    (handleApiError { response := some (404, none), hasRequest := true,
                      message := "Request failed with status code 404",
                      configUrl := some "/previews/nonexistent" } =
      "Tugboat API Error: Resource not found at /previews/nonexistent") ∧
    (∀ (e : UpstreamError) (st : Nat) (m : String),
      e.response = some (st, some m) → ¬(200 ≤ st ∧ st < 300) →
      st ≠ 401 → st ≠ 403 → st ≠ 404 → m ≠ "" →
      handleApiError e = s!"Tugboat API Error ({st}): {m}") ∧
    (∀ e : UpstreamError, e.response = none → e.hasRequest = true →
      handleApiError e = "Tugboat API Error: No response received from server") := by
  refine ⟨?_, ?_, ?_, rfl, ?_, ?_⟩
  · intro e dm h
    simp [handleApiError, h]
  · intro e dm h
    simp [handleApiError, h]
  · intro e dm url h hu hne
    simp [handleApiError, h, hu, jsOrElse, isEmpty_false_of_ne hne]
  · intro e st m h _ h1 h3 h4 hne
    simp [handleApiError, h, h1, h3, h4, jsOrElse, isEmpty_false_of_ne hne]
  · intro e h hr
    simp [handleApiError, h, hr]

/-- C2 witness: the mapping theorem applied at concrete errors. -/
theorem claim_C2_handleApiError_mapping_witness :
    handleApiError { response := some (401, none), hasRequest := true,
                     message := "m", configUrl := some "/x" } =
      "Tugboat API Error: Authentication failed. Please check your API key." ∧
    handleApiError { response := some (500, some "boom"), hasRequest := true,
                     message := "m", configUrl := some "/x" } =
      "Tugboat API Error (500): boom" := by
  constructor
  · exact claim_C2_handleApiError_mapping.1
      { response := some (401, none), hasRequest := true, message := "m",
        configUrl := some "/x" } none rfl
  · exact claim_C2_handleApiError_mapping.2.2.2.2.1
      { response := some (500, some "boom"), hasRequest := true, message := "m",
        configUrl := some "/x" } 500 "boom" rfl (by decide) (by decide) (by decide)
      (by decide) (by decide)

/-- A concrete project as returned by a successful PATCH, for the C7
instances. -/
def examplePatchedProject : PatchedProject :=
  { id := some "aaaaaaaaaaaaaaaaaaaaaaaa", name := some "Example",
    domain := some "example.com", updatedAt := some "2025-01-01T00:00:00.000Z" }

/-- C7 counterexample: the updateProject handler, invoked with both
optional fields absent (and the always-granting authorization), issues
the upstream PATCH with an empty update body and returns the
success-formatted text rather than a no-fields error, so the claim that
every update tool rejects zero-field updates before the PATCH is false. -/
theorem claim_C7_counterexample :
    updateProjectRun (Except.ok true) (Except.ok examplePatchedProject)
      { id := "aaaaaaaaaaaaaaaaaaaaaaaa", name := none, domain := none } =
    ({ content := [renderPatchedProject examplePatchedProject] },
     [{ method := "PATCH", endpoint := "/projects/aaaaaaaaaaaaaaaaaaaaaaaa",
        bodyKeys := [] }]) := by
  rfl

/-- C7 amended: updatePreview and updateRepository, invoked with zero
optional update fields, return their explicit no-fields error text and
never issue the upstream PATCH; updateProject has no such guard and
issues the PATCH with an empty update body even when both optional fields
are absent. -/
theorem claim_C7_zero_field_guards :
    (∀ (patchR : Except String PatchedPreview) (a : UpdatePreviewArgs),
      updatePreviewKeys a = [] →
      updatePreviewRun (Except.ok true) patchR a =
        ({ content := ["Error: No update parameters specified"] }, [])) ∧
    (∀ (patchR : Except String PatchedRepository) (a : UpdateRepositoryArgs),
      updateRepositoryKeys a = [] →
      updateRepositoryRun (Except.ok true) patchR a =
        ({ content := ["Error: No fields to update were provided"] }, [])) ∧
    (∀ (patchR : Except String PatchedProject) (a : UpdateProjectArgs),
      updateProjectKeys a = [] →
      (updateProjectRun (Except.ok true) patchR a).2 =
        [{ method := "PATCH", endpoint := s!"/projects/{a.id}", bodyKeys := [] }]) := by
  refine ⟨?_, ?_, ?_⟩
  · intro patchR a h
    simp [updatePreviewRun, h]
  · intro patchR a h
    simp [updateRepositoryRun, h]
  · intro patchR a h
    rcases patchR with m | p <;> simp [updateProjectRun, h]

/-- C7 witness: the amended theorem applied at concrete zero-field
inputs. -/
theorem claim_C7_zero_field_guards_witness :
    updatePreviewRun (Except.ok true) (Except.error "e")
      { previewId := "p1", name := none, locked := none, anchor := none,
        anchorType := none, config := none } =
      ({ content := ["Error: No update parameters specified"] }, []) ∧
    updateRepositoryRun (Except.ok true) (Except.error "e")
      { id := "r1", name := none, domain := none, autobuild := none,
        autobuildDrafts := none, autodelete := none, autorebuild := none,
        autoredeploy := none, providerComment := none, providerDeployment := none,
        providerForks := none, providerStatus := none, buildTimeout := none } =
      ({ content := ["Error: No fields to update were provided"] }, []) := by
  constructor
  · exact claim_C7_zero_field_guards.1 (Except.error "e")
      { previewId := "p1", name := none, locked := none, anchor := none,
        anchorType := none, config := none } rfl
  · exact claim_C7_zero_field_guards.2.1 (Except.error "e")
      { id := "r1", name := none, domain := none, autobuild := none,
        autobuildDrafts := none, autodelete := none, autorebuild := none,
        autoredeploy := none, providerComment := none, providerDeployment := none,
        providerForks := none, providerStatus := none, buildTimeout := none } rfl

/-- Prefix test on strings, by character lists. -/
def strStarts (s p : String) : Bool := startsWithList s.toList p.toList

/-- A well-formed error result: exactly one content block, whose text
begins with the word Error. -/
def singleErrorBlock (r : ToolResult) : Prop :=
  ∃ s, r.content = [s] ∧ strStarts s "Error" = true

/-- C1: for the createPreview handlers of src/tools/index.ts and
src/tools/previews.ts, a thrown error from the authorization pre-check,
from the POST, from the createPreview step or from the follow-up
getPreview step never propagates: the handler (a total function in the
embedding, so no exception reaches the protocol layer) returns a result
whose content is a single text block beginning with Error. -/
theorem claim_C1_errors_contained :
    (∀ (m : String) (postR : Except String CreatedPreview) (repo ref : String)
       (name : Option String) (cfg : Option Unit),
      singleErrorBlock (createPreviewRun (Except.error m) postR repo ref name cfg).1) ∧
    (∀ (m : String) (repo ref : String) (name : Option String) (cfg : Option Unit),
      singleErrorBlock (createPreviewRun (Except.ok true) (Except.error m) repo ref name cfg).1) ∧
    (∀ (m : String) (createR : Except String String) (getR : Except String PreviewLookup),
      singleErrorBlock (createPreviewRunAlt (Except.error m) createR getR)) ∧
    (∀ (m : String) (getR : Except String PreviewLookup),
      singleErrorBlock (createPreviewRunAlt (Except.ok true) (Except.error m) getR)) ∧
    (∀ (m : String) (createR : Except String String),
      singleErrorBlock (createPreviewRunAlt (Except.ok true) createR (Except.error m))) := by
  refine ⟨?_, ?_, ?_, ?_, ?_⟩
  · intro m postR repo ref name cfg
    exact ⟨_, rfl, rfl⟩
  · intro m repo ref name cfg
    rcases hre : repo.isEmpty || ref.isEmpty with _ | _
    · simp only [createPreviewRun, hre, Bool.false_eq_true, if_false]
      exact ⟨_, rfl, rfl⟩
    · simp only [createPreviewRun, hre, if_true]
      exact ⟨_, rfl, rfl⟩
  · intro m createR getR
    exact ⟨_, rfl, rfl⟩
  · intro m getR
    exact ⟨_, rfl, rfl⟩
  · intro m createR
    rcases createR with m2 | pid
    · exact ⟨_, rfl, rfl⟩
    · exact ⟨_, rfl, rfl⟩

/-- A concrete upstream for the fallback path of C8: the direct listing
rejects, the first project's previews request rejects (and is tolerated),
the second project's previews are returned. -/
def exampleFallbackUpstream : SearchUpstream :=
  { direct := ListResp.err "connection refused",
    projects := ListResp.ok [{ id := some "p1" }, { id := some "p2" }],
    projectPreviews := fun pid =>
      if pid = "p1" then ListResp.err "server error"
      else ListResp.ok [featurePreview, mainPreview] }

/-- C8: the searchPreviews tool over a successful direct listing returns
exactly the previews selected by the case-insensitive multi-field
substring filter (name, id, ref, url) with the state condition; on the
worked example, the query feature selects exactly the Feature Preview
entry out of the two-element list; and when the direct listing rejects or
is not an array, the tool aggregates each listed project's previews,
tolerating per-project failures, and applies the same filter to the
aggregate. -/
theorem claim_C8_searchPreviews_filter :
    (∀ (u : SearchUpstream) (q : String) (st : Option String) (l : List Preview),
      u.direct = ListResp.ok l →
      searchPreviewsRun u true q st =
        { content := [renderSearchText q (l.filter (previewMatches q st))] }) ∧
    (∀ (u : SearchUpstream) (q : String) (st : Option String) (em : String)
       (ps : List ProjectRef),
      u.direct = ListResp.err em → u.projects = ListResp.ok ps →
      searchPreviewsRun u true q st =
        { content :=
            [renderSearchText q ((aggregatePreviews u ps).filter (previewMatches q st))] }) ∧
    (∀ (u : SearchUpstream) (q : String) (st : Option String) (ps : List ProjectRef),
      u.direct = ListResp.nonArray → u.projects = ListResp.ok ps →
      searchPreviewsRun u true q st =
        { content :=
            [renderSearchText q ((aggregatePreviews u ps).filter (previewMatches q st))] }) ∧
    ([featurePreview, mainPreview].filter (previewMatches "feature" none) =
      [featurePreview]) ∧
    (searchPreviewsRun exampleFallbackUpstream true "feature" none =
      { content := [renderSearchText "feature" [featurePreview]] }) := by
  refine ⟨?_, ?_, ?_, by decide, by rfl⟩
  · intro u q st l h
    simp [searchPreviewsRun, h]
  · intro u q st em ps h1 h2
    simp [searchPreviewsRun, h1, h2]
  · intro u q st ps h1 h2
    simp [searchPreviewsRun, h1, h2]

/-- C8 witness: the direct-path part of the theorem applied to a concrete
upstream holding the worked two-preview example. -/
theorem claim_C8_searchPreviews_filter_witness :
    searchPreviewsRun
      { direct := ListResp.ok [featurePreview, mainPreview],
        projects := ListResp.ok [],
        projectPreviews := fun _ => ListResp.nonArray } true "feature" none =
      { content :=
          [renderSearchText "feature"
            ([featurePreview, mainPreview].filter (previewMatches "feature" none))] } :=
  claim_C8_searchPreviews_filter.1
    { direct := ListResp.ok [featurePreview, mainPreview],
      projects := ListResp.ok [],
      projectPreviews := fun _ => ListResp.nonArray } "feature" none
    [featurePreview, mainPreview] rfl

/-- C5: the authentication middleware is the following total function of
the request: a missing (or falsy) authorization header rejects with 401;
a header not matching the bearer shape rejects with 401; a bearer value
different from the authentication manager's token rejects with 401; with
a matching token and a resource route parameter, the action is derived
from the method (GET read, POST or PUT or PATCH write, DELETE delete,
anything else read) and isAuthorized decides between passing through and
a 403 rejection; with no resource parameter the request passes through.
The final conjunct pins the backtracking corner of the bearer pattern: a
header whose remainder is two spaces matches with the last space as the
captured token, so such a header is routed to the token comparison (the
mismatch and match conjuncts above), not to the malformed-header 401. -/
theorem claim_C5_middleware_function (tokenValue : String)
    (oracle : String → AccessAction → Bool) :
    (∀ (method : String) (rp : Option String),
      createAuthMiddleware tokenValue oracle
        { authHeader := none, method := method, resourceParam := rp } =
      MwOutcome.reject 401 "Authentication required" "No authorization header provided") ∧
    (∀ (method : String) (rp : Option String),
      createAuthMiddleware tokenValue oracle
        { authHeader := some "", method := method, resourceParam := rp } =
      MwOutcome.reject 401 "Authentication required" "No authorization header provided") ∧
    (∀ (h method : String) (rp : Option String), h ≠ "" → parseBearer h = none →
      createAuthMiddleware tokenValue oracle
        { authHeader := some h, method := method, resourceParam := rp } =
      MwOutcome.reject 401 "Authentication required" "Invalid authorization header format") ∧
    (∀ (h t method : String) (rp : Option String), h ≠ "" → parseBearer h = some t →
      t ≠ tokenValue →
      createAuthMiddleware tokenValue oracle
        { authHeader := some h, method := method, resourceParam := rp } =
      MwOutcome.reject 401 "Authentication failed" "Invalid authentication token") ∧
    (∀ (h method : String), h ≠ "" → parseBearer h = some tokenValue →
      createAuthMiddleware tokenValue oracle
        { authHeader := some h, method := method, resourceParam := none } =
      MwOutcome.next) ∧
    (∀ (h method r : String), h ≠ "" → parseBearer h = some tokenValue → r ≠ "" →
      oracle r (getActionFromMethod method) = true →
      createAuthMiddleware tokenValue oracle
        { authHeader := some h, method := method, resourceParam := some r } =
      MwOutcome.next) ∧
    (∀ (h method r : String), h ≠ "" → parseBearer h = some tokenValue → r ≠ "" →
      oracle r (getActionFromMethod method) = false →
      createAuthMiddleware tokenValue oracle
        { authHeader := some h, method := method, resourceParam := some r } =
      MwOutcome.reject 403 "Authorization failed"
        s!"You do not have permission to {accessActionText (getActionFromMethod method)} this resource") ∧
    (getActionFromMethod "GET" = AccessAction.read ∧
     getActionFromMethod "POST" = AccessAction.write ∧
     getActionFromMethod "PUT" = AccessAction.write ∧
     getActionFromMethod "PATCH" = AccessAction.write ∧
     getActionFromMethod "DELETE" = AccessAction.delete) ∧
    (∀ method : String,
      upperString method ∉ (["GET", "POST", "PUT", "PATCH", "DELETE"] : List String) →
      getActionFromMethod method = AccessAction.read) ∧
    parseBearer "Bearer  " = some " " := by
  refine ⟨fun _ _ => rfl, fun _ _ => rfl, ?_, ?_, ?_, ?_, ?_,
          ⟨rfl, rfl, rfl, rfl, rfl⟩, ?_, by decide⟩
  · intro h method rp hne hp
    simp [createAuthMiddleware, isEmpty_false_of_ne hne, hp]
  · intro h t method rp hne hp ht
    simp [createAuthMiddleware, isEmpty_false_of_ne hne, hp, ht]
  · intro h method hne hp
    simp [createAuthMiddleware, isEmpty_false_of_ne hne, hp]
  · intro h method r hne hp hr ho
    simp [createAuthMiddleware, isEmpty_false_of_ne hne, hp,
          isEmpty_false_of_ne hr, ho]
  · intro h method r hne hp hr ho
    simp [createAuthMiddleware, isEmpty_false_of_ne hne, hp,
          isEmpty_false_of_ne hr, ho]
  · intro method hm
    have hg : upperString method ≠ "GET" := fun e => hm (by simp [e])
    have hpo : upperString method ≠ "POST" := fun e => hm (by simp [e])
    have hpu : upperString method ≠ "PUT" := fun e => hm (by simp [e])
    have hpa : upperString method ≠ "PATCH" := fun e => hm (by simp [e])
    have hd : upperString method ≠ "DELETE" := fun e => hm (by simp [e])
    simp [getActionFromMethod, hg, hpo, hpu, hpa, hd]

/-- C5 witness: the middleware theorem applied at concrete requests. -/
theorem claim_C5_middleware_function_witness :
    createAuthMiddleware "tok" (fun _ _ => true)
      { authHeader := some "Bearer tok", method := "GET",
        resourceParam := some "previews" } = MwOutcome.next ∧
    createAuthMiddleware "tok" (fun _ _ => false)
      { authHeader := some "Bearer tok", method := "DELETE",
        resourceParam := some "previews" } =
      MwOutcome.reject 403 "Authorization failed"
        "You do not have permission to delete this resource" := by
  constructor
  · exact (claim_C5_middleware_function "tok" (fun _ _ => true)).2.2.2.2.2.1
      "Bearer tok" "GET" "previews" (by decide) (by decide) (by decide) rfl
  · exact (claim_C5_middleware_function "tok" (fun _ _ => false)).2.2.2.2.2.2.1
      "Bearer tok" "DELETE" "previews" (by decide) (by decide) (by decide) rfl

/-- Helper for C3: once a refresh is in flight and no token is cached,
every further authenticate start leaves the state unchanged and joins the
in-flight promise. -/
theorem authenticateBurst_inflight (now m p c : Nat) :
    authenticateBurst { token := none, tokenRefreshPromise := some p, refreshCount := c }
        now m =
      ({ token := none, tokenRefreshPromise := some p, refreshCount := c },
       List.replicate m (AuthCallOutcome.awaits p)) := by
  induction m with
  | zero => rfl
  | succ k ih =>
    simp [authenticateBurst, authenticateStart, ih, List.replicate]

/-- C3: a burst of n authenticate calls starting from the fresh state,
all of whose synchronous prefixes run before the refresh promise
resolves, starts exactly one refresh execution; every caller joins the
same first promise, and so every caller resolves to the identical token
value, the wrapped API key. -/
theorem claim_C3_single_flight (apiKey : String) (now n : Nat) (h : 1 ≤ n) :
    (authenticateBurst initialAuthState now n).1.refreshCount = 1 ∧
    (∀ r ∈ (authenticateBurst initialAuthState now n).2, r = AuthCallOutcome.awaits 0) ∧
    (∀ r ∈ (authenticateBurst initialAuthState now n).2,
      resolveOutcome apiKey r = refreshTokenValue apiKey) := by
  obtain ⟨k, rfl⟩ : ∃ k, n = k + 1 := ⟨n - 1, (Nat.succ_pred_eq_of_pos h).symm⟩
  have hstep :
      authenticateBurst initialAuthState now (k + 1) =
        ({ token := none, tokenRefreshPromise := some 0, refreshCount := 1 },
         AuthCallOutcome.awaits 0 :: List.replicate k (AuthCallOutcome.awaits 0)) := by
    simp [authenticateBurst, authenticateStart, initialAuthState,
          authenticateBurst_inflight now k 0 1]
  refine ⟨by rw [hstep], ?_, ?_⟩
  · intro r hr
    rw [hstep] at hr
    rcases List.mem_cons.mp hr with h1 | h2
    · exact h1
    · exact List.eq_of_mem_replicate h2
  · intro r hr
    rw [hstep] at hr
    rcases List.mem_cons.mp hr with h1 | h2
    · rw [h1]; rfl
    · rw [List.eq_of_mem_replicate h2]; rfl

/-- C3 witness: the single-flight theorem at a burst of three concurrent
callers. -/
theorem claim_C3_single_flight_witness :
    (authenticateBurst initialAuthState 0 3).1.refreshCount = 1 ∧
    (∀ r ∈ (authenticateBurst initialAuthState 0 3).2, r = AuthCallOutcome.awaits 0) ∧
    (∀ r ∈ (authenticateBurst initialAuthState 0 3).2,
      resolveOutcome "api-key" r = refreshTokenValue "api-key") :=
  claim_C3_single_flight "api-key" 0 3 (by decide)

end Tugboat
